import Mathlib

/-!
# TerraChat Browser Service — verification of the request-handling core

Shallow embedding of `src/app.py` (FastAPI service driving a headless
browser).  External browser-engine calls (launch, context/page creation,
navigation, title, screenshot, text extraction, click, fill, close) are
modelled by an oracle `Env` that fixes the outcome of each call; the
control flow of the Python handler `_browse` and of the HTTP endpoints is
translated faithfully, including the counter updates in `_stats`, the
swallowed navigation error, and the cleanup behaviour of the
`try`/`except` blocks.  Python `Optional[str]` becomes `Option String`,
Python truthiness of an optional string (non-None and non-empty) is
`pyTruthy`, raised exceptions become `Except` errors, and the regex-based
text cleanup of the `read` action is implemented character by character.
-/

deriving instance DecidableEq for Except

/-- Python truthiness of an `Optional[str]`: `None` and the empty string
are falsy, every other string is truthy.  Used by the guards
`req.selector` and `req.input_text` in `_browse`. -/
def pyTruthy : Option String → Bool
  | none => false
  | some s => s ≠ ""

/-- Whitespace class used by the Python regexes `\s` and by `str.strip()`
(ASCII part: space, tab, newline, carriage return, vertical tab, form
feed). -/
def isPySpace (c : Char) : Bool :=
  c = ' ' || c = '\t' || c = '\n' || c = '\r' || c = '\x0b' || c = '\x0c'

/-- One step of `re.sub` with pattern `<[^>]+>`: the scanner state is
`none` in normal mode and `some buf` while inside a potential tag, `buf`
holding (reversed) the characters seen after the opening `<`.  A tag with
at least one character before the closing `>` is replaced by one space;
`<>` and an unterminated `<...` are left verbatim, exactly as the regex
(which requires one or more non-`>` characters followed by `>`) behaves. -/
def stripTagsAux : Option (List Char) → List Char → List Char
  | none, [] => []
  | none, c :: rest =>
      if c = '<' then stripTagsAux (some []) rest
      else c :: stripTagsAux none rest
  | some buf, [] => '<' :: buf.reverse
  | some buf, c :: rest =>
      if c = '>' then
        if buf.isEmpty then '<' :: '>' :: stripTagsAux none rest
        else ' ' :: stripTagsAux none rest
      else stripTagsAux (some (c :: buf)) rest

/-- `re.sub(r'<[^>]+>', ' ', s)` from the `read` fallback path. -/
def stripTags (l : List Char) : List Char := stripTagsAux none l

/-- `re.sub(r'\s+', ' ', s)`: each maximal run of whitespace becomes a
single space.  The boolean records whether the previous character was
part of a whitespace run. -/
def collapseWsAux : Bool → List Char → List Char
  | _, [] => []
  | inRun, c :: rest =>
      if isPySpace c then
        if inRun then collapseWsAux true rest
        else ' ' :: collapseWsAux true rest
      else c :: collapseWsAux false rest

/-- `re.sub(r'\s+', ' ', s)` from the `read` fallback path. -/
def collapseWs (l : List Char) : List Char := collapseWsAux false l

/-- Emit a pending run of `n` newlines: runs of three or more are
replaced by exactly two (`re.sub(r'\n{3,}', '\n\n', s)`), shorter runs
are kept as they are. -/
def emitNlRun (n : Nat) : List Char :=
  if 3 ≤ n then ['\n', '\n'] else List.replicate n '\n'

/-- Scanner for `re.sub(r'\n{3,}', '\n\n', s)`; the counter is the length
of the newline run read so far. -/
def collapseNlAux : Nat → List Char → List Char
  | pending, [] => emitNlRun pending
  | pending, c :: rest =>
      if c = '\n' then collapseNlAux (pending + 1) rest
      else emitNlRun pending ++ c :: collapseNlAux 0 rest

/-- `re.sub(r'\n{3,}', '\n\n', s)` from the `read` action. -/
def collapseNl (l : List Char) : List Char := collapseNlAux 0 l

/-- Python `s.strip()`: remove leading and trailing whitespace. -/
def pyStrip (s : String) : String :=
  String.mk (((s.data.dropWhile isPySpace).reverse.dropWhile isPySpace).reverse)

/-- Python slice `s[:n]` on a `str`: the first `n` characters. -/
def pyTake (s : String) (n : Nat) : String := String.mk (s.data.take n)

/-- The base64 alphabet used by `base64.b64encode`. -/
def b64alphabet : List Char :=
  "ABCDEFGHIJKLMNOPQRSTUVWXYZabcdefghijklmnopqrstuvwxyz0123456789+/".data

/-- Character of the base64 alphabet at index `n` (0 ≤ n < 64). -/
def b64char (n : Nat) : Char := b64alphabet.getD n 'A'

/-- `base64.b64encode` on a byte list (bytes as naturals below 256),
including `=` padding. -/
def b64encodeList : List Nat → List Char
  | [] => []
  | [a] => [b64char (a / 4), b64char (a % 4 * 16), '=', '=']
  | [a, b] => [b64char (a / 4), b64char (a % 4 * 16 + b / 16), b64char (b % 16 * 4), '=']
  | a :: b :: c :: rest =>
      b64char (a / 4) :: b64char (a % 4 * 16 + b / 16) ::
      b64char (b % 16 * 4 + c / 64) :: b64char (c % 64) :: b64encodeList rest

/-- The single-quote character interpolated by the f-string
`Filled ...` of the `fill` action. -/
def singleQuote : String := String.singleton (Char.ofNat 39)

/-- The confirmation string of the `fill` action:
`f-string Filled {selector} with: {input_text[:50]}` with the selector
wrapped in single quotes. -/
def fillMessage (sel inp : String) : String :=
  "Filled " ++ singleQuote ++ sel ++ singleQuote ++ " with: " ++ pyTake inp 50

/-- The default API key from `os.environ.get("BROWSER_SERVICE_API_KEY", ...)`. -/
def defaultApiKey : String := "terrachat-browser-2026"

/-- The fixed user agent passed to `browser.new_context`. -/
def contextUserAgent : String :=
  "Mozilla/5.0 (X11; Linux x86_64) AppleWebKit/537.36 (KHTML, like Gecko) Chrome/120.0.0.0 Safari/537.36"

/-- The fixed viewport passed to `browser.new_context`. -/
def viewportWidth : Nat := 1280

/-- The fixed viewport passed to `browser.new_context`. -/
def viewportHeight : Nat := 800

/-- The request model `BrowseRequest` (pydantic `BaseModel`). -/
structure BrowseRequest where
  url : String
  action : String
  selector : Option String
  input_text : Option String
  wait_ms : Int
  timeout_ms : Int
  full_page : Bool
  save_to_agent : Option String
  deriving DecidableEq, Repr

/-- The result dictionary built by `_browse`: `url`, `title` and `action`
are always present, `screenshot` (base64 string) and `text` only when the
corresponding branch stores them. -/
structure BrowseResult where
  url : String
  title : String
  action : String
  screenshot : Option String
  text : Option String
  deriving DecidableEq, Repr

/-- The process-wide counters of `_stats` (the `started_at` float
timestamp is not modelled; no claim depends on it). -/
structure Stats where
  requests_total : Nat
  requests_ok : Nat
  requests_error : Nat
  deriving DecidableEq, Repr

/-- A raised `fastapi.HTTPException`, carrying status code and detail. -/
inductive HTTPError where
  | httpException (status : Nat) (detail : String)
  deriving DecidableEq, Repr

/-- Oracle fixing the outcome of every external browser-engine call one
execution of `_browse` can make.  An `Except.error` value means the
corresponding Python call raises, with the exception text as payload. -/
structure Env where
  ensureBrowserResult : Except String Unit
  newContextResult : Except String Unit
  newPageResult : Except String Unit
  gotoResult : Except String Unit
  titleResult : Except String String
  screenshotResult : Except String (List Nat)
  innerTextResult : Except String String
  contentResult : Except String String
  clickResult : Except String Unit
  clickTextResult : Except String String
  fillResult : Except String Unit
  contextCloseResult : Except String Unit
  deriving DecidableEq, Repr

/-- Which resource-managing calls one execution of `_browse` performed. -/
structure BrowseTrace where
  ensureCalled : Bool
  contextOpened : Bool
  pageOpened : Bool
  contextCloseCalled : Bool
  pageCloseCalled : Bool
  deriving DecidableEq, Repr

/-- The complete observable outcome of one `_browse` call: the returned
dictionary or raised `HTTPException`, the updated counters, and the
resource trace. -/
structure BrowseOutcome where
  result : Except HTTPError BrowseResult
  stats : Stats
  trace : BrowseTrace
  deriving DecidableEq, Repr

/-- Screenshot step of `_browse`: for the four known actions a screenshot
is taken (and may raise) and stored base64-encoded; for any other action
nothing happens. -/
def screenshotStep (env : Env) (req : BrowseRequest) (r : BrowseResult) :
    Except String BrowseResult :=
  if ["screenshot", "read", "click", "fill"].contains req.action then
    match env.screenshotResult with
    | .error e => .error e
    | .ok bytes => .ok { r with screenshot := some (String.mk (b64encodeList bytes)) }
  else .ok r

/-- Action dispatch of `_browse` (the `if`/`elif` chain on `req.action`):
`read` extracts and cleans the body text with an in-branch fallback,
`click` requires a truthy selector, `fill` requires a truthy selector and
truthy input text; a guard that fails falls through and leaves the result
dictionary unchanged. -/
def actionStep (env : Env) (req : BrowseRequest) (r : BrowseResult) :
    Except String BrowseResult :=
  if req.action = "read" then
    match
      (match env.innerTextResult with
       | .ok t => Except.ok t
       | .error _ =>
         match env.contentResult with
         | .error e => Except.error e
         | .ok content => Except.ok (String.mk (collapseWs (stripTags content.data)))) with
    | .error e => .error e
    | .ok raw =>
      let text := pyStrip (String.mk (collapseNl raw.data))
      .ok { r with text := some (if text.length > 8000 then pyTake text 8000 else text) }
  else if req.action = "click" ∧ pyTruthy req.selector then
    match env.clickResult with
    | .error e => .error e
    | .ok _ =>
      match env.clickTextResult with
      | .error e => .error e
      | .ok t => .ok { r with text := some (pyTake t 3000) }
  else if req.action = "fill" ∧ pyTruthy req.selector ∧ pyTruthy req.input_text then
    match env.fillResult with
    | .error e => .error e
    | .ok _ =>
      .ok { r with text := some (fillMessage (req.selector.getD "") (req.input_text.getD "")) }
  else .ok r

/-- Steps of `_browse` after the page exists: read the title, build the
base result dictionary, take the screenshot, run the action. -/
def innerSteps (env : Env) (req : BrowseRequest) : Except String BrowseResult :=
  match env.titleResult with
  | .error e => .error e
  | .ok title =>
    let r0 : BrowseResult :=
      { url := req.url, title := title, action := req.action, screenshot := none, text := none }
    match screenshotStep env req r0 with
    | .error e => .error e
    | .ok r1 => actionStep env req r1

/-- The outer `try` block of `_browse`: open context and page, navigate
(the navigation error is logged and swallowed), run the inner steps,
close the context.  Returns the result or exception text together with
(contextOpened, pageOpened, contextCloseCalled). -/
def tryBlock (env : Env) (req : BrowseRequest) :
    Except String BrowseResult × Bool × Bool × Bool :=
  match env.newContextResult with
  | .error e => (.error e, false, false, false)
  | .ok _ =>
    match env.newPageResult with
    | .error e => (.error e, true, false, false)
    | .ok _ =>
      -- page.goto(...): any exception is caught, logged as a warning and
      -- swallowed; execution continues either way with partial page state.
      let _ := match env.gotoResult with | .ok _ => () | .error _ => ()
      -- if req.wait_ms > 0: page.wait_for_timeout(req.wait_ms) — timing
      -- only, no observable effect in the model.
      match innerSteps env req with
      | .error e => (.error e, true, true, false)
      | .ok res =>
        match env.contextCloseResult with
        | .error e => (.error e, true, true, true)
        | .ok _ => (.ok res, true, true, true)

/-- The core handler `_browse` of `src/app.py`: bump the total counter,
ensure the browser (503 on failure), run the `try` block; on success bump
the ok counter and return the dictionary, on any exception bump the error
counter, close the page if one was opened (close errors swallowed) and
raise a 500 `HTTPException` with the exception text. -/
def browseCore (env : Env) (req : BrowseRequest) (st : Stats) : BrowseOutcome :=
  let st1 : Stats := { st with requests_total := st.requests_total + 1 }
  match env.ensureBrowserResult with
  | .error e =>
      { result := .error (.httpException 503 ("Browser unavailable: " ++ e))
        stats := { st1 with requests_error := st1.requests_error + 1 }
        trace := { ensureCalled := true, contextOpened := false, pageOpened := false,
                   contextCloseCalled := false, pageCloseCalled := false } }
  | .ok _ =>
      match tryBlock env req with
      | (.ok res, ctxO, pgO, ctxC) =>
          { result := .ok res
            stats := { st1 with requests_ok := st1.requests_ok + 1 }
            trace := { ensureCalled := true, contextOpened := ctxO, pageOpened := pgO,
                       contextCloseCalled := ctxC, pageCloseCalled := false } }
      | (.error msg, ctxO, pgO, ctxC) =>
          { result := .error (.httpException 500 msg)
            stats := { st1 with requests_error := st1.requests_error + 1 }
            trace := { ensureCalled := true, contextOpened := ctxO, pageOpened := pgO,
                       contextCloseCalled := ctxC, pageCloseCalled := pgO } }

/-- `_check_auth`: raise a 401 `HTTPException` when the supplied
`X-API-Key` header (absent headers arrive as `None`) differs from the
configured key. -/
def checkAuth (apiKey : String) (xApiKey : Option String) : Except HTTPError Unit :=
  if xApiKey ≠ some apiKey then .error (.httpException 401 "Invalid API key")
  else .ok ()

/-- The trace of an endpoint call that was rejected before any browsing
work: nothing was ensured, opened or closed. -/
def noWorkTrace : BrowseTrace :=
  { ensureCalled := false, contextOpened := false, pageOpened := false,
    contextCloseCalled := false, pageCloseCalled := false }

/-- Response body of `GET /healthz`. -/
structure HealthzResponse where
  ok : Bool
  browser_ready : Bool
  deriving DecidableEq, Repr

/-- The global `_browser` handle: `none` when no browser object exists
(never launched or cleared), `some c` for an existing handle whose
`is_connected()` returns `c`. -/
abbrev BrowserHandle := Option Bool

/-- `_browser is not None and _browser.is_connected()`. -/
def browserConnected : BrowserHandle → Bool
  | none => false
  | some c => c

/-- `GET /healthz`: total function with no authentication parameter and
no error outcome; reports whether the browser handle exists and is
connected. -/
def healthz (b : BrowserHandle) : HealthzResponse :=
  { ok := true, browser_ready := browserConnected b }

/-- Response body of `GET /status`. -/
structure StatusResponse where
  browser_active : Bool
  uptime_seconds : Nat
  requests_total : Nat
  requests_ok : Nat
  requests_error : Nat
  deriving DecidableEq, Repr

/-- `GET /status`: authenticated; snapshot of connectivity, uptime and
counters. -/
def statusEndpoint (apiKey : String) (xApiKey : Option String) (b : BrowserHandle)
    (uptime : Nat) (st : Stats) : Except HTTPError StatusResponse :=
  match checkAuth apiKey xApiKey with
  | .error e => .error e
  | .ok _ =>
      .ok { browser_active := browserConnected b, uptime_seconds := uptime,
            requests_total := st.requests_total, requests_ok := st.requests_ok,
            requests_error := st.requests_error }

/-- `POST /browse`: authenticated, then delegates to `_browse`
(`browseCore`).  On auth failure the counters and trace are untouched. -/
def browseEndpoint (apiKey : String) (xApiKey : Option String) (env : Env)
    (req : BrowseRequest) (st : Stats) : BrowseOutcome :=
  match checkAuth apiKey xApiKey with
  | .error e => { result := .error e, stats := st, trace := noWorkTrace }
  | .ok _ => browseCore env req st

/-- Response body of `POST /screenshot`. -/
structure ScreenshotResponse where
  url : String
  title : String
  screenshot : String
  deriving DecidableEq, Repr

/-- `POST /screenshot`: authenticated; forces `action = "screenshot"`,
then projects url, title and `result.get("screenshot", "")`. -/
def screenshotOnly (apiKey : String) (xApiKey : Option String) (env : Env)
    (req : BrowseRequest) (st : Stats) :
    Except HTTPError ScreenshotResponse × Stats × BrowseTrace :=
  match checkAuth apiKey xApiKey with
  | .error e => (.error e, st, noWorkTrace)
  | .ok _ =>
      let out := browseCore env { req with action := "screenshot" } st
      match out.result with
      | .error e => (.error e, out.stats, out.trace)
      | .ok r =>
          (.ok { url := r.url, title := r.title, screenshot := r.screenshot.getD "" },
           out.stats, out.trace)

/-- Response body of `POST /extract`. -/
structure ExtractResponse where
  url : String
  title : String
  text : String
  deriving DecidableEq, Repr

/-- `POST /extract`: authenticated; forces `action = "read"`, then
projects url, title and `result.get("text", "")`. -/
def extractText (apiKey : String) (xApiKey : Option String) (env : Env)
    (req : BrowseRequest) (st : Stats) :
    Except HTTPError ExtractResponse × Stats × BrowseTrace :=
  match checkAuth apiKey xApiKey with
  | .error e => (.error e, st, noWorkTrace)
  | .ok _ =>
      let out := browseCore env { req with action := "read" } st
      match out.result with
      | .error e => (.error e, out.stats, out.trace)
      | .ok r =>
          (.ok { url := r.url, title := r.title, text := r.text.getD "" },
           out.stats, out.trace)

/-- Response body of `POST /restart-browser`. -/
structure RestartResponse where
  ok : Bool
  message : String
  deriving DecidableEq, Repr

/-- `POST /restart-browser`: authenticated; `_close_browser()` (never
raises, clears the handle) then `_ensure_browser()` (a raised exception
becomes the frameworks 500 response).  Returns the response and the new
browser handle. -/
def restartBrowser (apiKey : String) (xApiKey : Option String)
    (launch : Except String Unit) (b : BrowserHandle) :
    Except HTTPError RestartResponse × BrowserHandle :=
  match checkAuth apiKey xApiKey with
  | .error e => (.error e, b)
  | .ok _ =>
      match launch with
      | .error msg => (.error (.httpException 500 msg), none)
      | .ok _ => (.ok { ok := true, message := "Browser restarted" }, some true)

/-- An oracle under which every browser-engine call succeeds: title `T`,
empty screenshot bytes, body text `hello` (no markup, no long runs of
whitespace), body text after a click `after`. -/
def okEnv : Env :=
  { ensureBrowserResult := .ok ()
    newContextResult := .ok ()
    newPageResult := .ok ()
    gotoResult := .ok ()
    titleResult := .ok "T"
    screenshotResult := .ok []
    innerTextResult := .ok "hello"
    contentResult := .ok ""
    clickResult := .ok ()
    clickTextResult := .ok "after"
    fillResult := .ok ()
    contextCloseResult := .ok () }

/-- Zeroed counters. -/
def stZero : Stats := { requests_total := 0, requests_ok := 0, requests_error := 0 }

/-- A `BrowseRequest` with the pydantic defaults except for the given
url and action. -/
def mkReq (url action : String) (selector input_text : Option String) : BrowseRequest :=
  { url := url, action := action, selector := selector, input_text := input_text,
    wait_ms := 1500, timeout_ms := 20000, full_page := false, save_to_agent := none }

/-- An oracle that fails both body-text extraction calls of the `read`
action, so the fallback also raises and the handler takes the generic
exception path. -/
def readFailEnv : Env :=
  { okEnv with innerTextResult := .error "boom", contentResult := .error "boom2" }

/-! ## Helper lemmas -/

/-- The screenshot step never touches the `text` field. -/
theorem screenshotStep_text (env : Env) (req : BrowseRequest) (r r1 : BrowseResult)
    (h : screenshotStep env req r = .ok r1) : r1.text = r.text := by
  unfold screenshotStep at h
  split at h
  · cases hS : env.screenshotResult with
    | error e => rw [hS] at h; cases h
    | ok bytes => rw [hS] at h; cases h; rfl
  · cases h; rfl

/-- When none of the three action guards holds, the `if`/`elif` chain
falls through and the result dictionary is returned unchanged. -/
theorem actionStep_skip (env : Env) (req : BrowseRequest) (r : BrowseResult)
    (hR : ¬ req.action = "read")
    (hC : ¬ (req.action = "click" ∧ pyTruthy req.selector))
    (hF : ¬ (req.action = "fill" ∧ pyTruthy req.selector ∧ pyTruthy req.input_text)) :
    actionStep env req r = .ok r := by
  unfold actionStep
  rw [if_neg hR, if_neg hC, if_neg hF]

/-- A successful `_browse` outcome decomposes into a successful title
read, a successful screenshot step and a successful action step. -/
theorem innerSteps_ok_decomp (env : Env) (req : BrowseRequest) (res : BrowseResult)
    (h : innerSteps env req = .ok res) :
    ∃ title r1, env.titleResult = .ok title ∧
      screenshotStep env req
        { url := req.url, title := title, action := req.action,
          screenshot := none, text := none } = .ok r1 ∧
      actionStep env req r1 = .ok res := by
  unfold innerSteps at h
  cases hT : env.titleResult with
  | error e => rw [hT] at h; cases h
  | ok title =>
      simp only [hT] at h
      cases hS : screenshotStep env req
          { url := req.url, title := title, action := req.action,
            screenshot := none, text := none } with
      | error e => simp only [hS] at h; cases h
      | ok r1 =>
          simp only [hS] at h
          exact ⟨title, r1, rfl, hS, h⟩

/-- A successful `_browse` result comes from a complete successful run of
the inner steps. -/
theorem browseCore_ok_innerSteps (env : Env) (req : BrowseRequest) (st : Stats)
    (res : BrowseResult) (h : (browseCore env req st).result = .ok res) :
    innerSteps env req = .ok res := by
  unfold browseCore at h
  cases hE : env.ensureBrowserResult with
  | error e => rw [hE] at h; cases h
  | ok _ =>
      rw [hE] at h
      unfold tryBlock at h
      cases hC : env.newContextResult with
      | error e => rw [hC] at h; cases h
      | ok _ =>
          rw [hC] at h
          cases hP : env.newPageResult with
          | error e => rw [hP] at h; cases h
          | ok _ =>
              rw [hP] at h
              cases hI : innerSteps env req with
              | error e => rw [hI] at h; cases h
              | ok r =>
                  rw [hI] at h
                  cases hCl : env.contextCloseResult with
                  | error e => rw [hCl] at h; cases h
                  | ok _ =>
                      rw [hCl] at h
                      cases h
                      rfl

/-- Length of a string built from an explicit character list. -/
theorem stringLengthMk (l : List Char) : (String.mk l).length = l.length := rfl

/-- Python slices never lengthen a string: `len(s[:n]) ≤ n`. -/
theorem pyTake_length_le (s : String) (n : Nat) : (pyTake s n).length ≤ n := by
  show (String.mk (s.data.take n)).length ≤ n
  rw [stringLengthMk, List.length_take]
  omega

/-- Truncation bound for the pattern
`text[:n] if len(text) > n else text`. -/
theorem truncIf_length_le (s : String) (n : Nat) :
    (if s.length > n then pyTake s n else s).length ≤ n := by
  split
  · exact pyTake_length_le s n
  · omega

/-- In the `read` branch any stored text went through the final
truncation to 8000 characters. -/
theorem actionStep_read_length (env : Env) (req : BrowseRequest) (r res : BrowseResult)
    (hRead : req.action = "read") (h : actionStep env req r = .ok res)
    (t : String) (ht : res.text = some t) : t.length ≤ 8000 := by
  unfold actionStep at h
  rw [if_pos hRead] at h
  cases hIT : env.innerTextResult with
  | ok raw =>
      simp only [hIT] at h
      cases h
      simp only at ht
      cases ht
      exact truncIf_length_le _ 8000
  | error e =>
      simp only [hIT] at h
      cases hCt : env.contentResult with
      | error e2 => simp only [hCt] at h; cases h
      | ok content =>
          simp only [hCt] at h
          cases h
          simp only at ht
          cases ht
          exact truncIf_length_le _ 8000

/-- In the `click` branch any stored text is sliced to 3000 characters;
if the click guard fails the result keeps the (absent) text of its
input. -/
theorem actionStep_click_length (env : Env) (req : BrowseRequest) (r res : BrowseResult)
    (hClick : req.action = "click") (hr : r.text = none)
    (h : actionStep env req r = .ok res)
    (t : String) (ht : res.text = some t) : t.length ≤ 3000 := by
  unfold actionStep at h
  rw [hClick] at h
  rw [if_neg (by decide)] at h
  by_cases hSel : pyTruthy req.selector
  · rw [if_pos ⟨rfl, hSel⟩] at h
    cases hCl : env.clickResult with
    | error e => simp only [hCl] at h; cases h
    | ok _ =>
        simp only [hCl] at h
        cases hCt : env.clickTextResult with
        | error e => simp only [hCt] at h; cases h
        | ok t0 =>
            simp only [hCt] at h
            cases h
            simp only at ht
            cases ht
            exact pyTake_length_le t0 3000
  · rw [if_neg (by simp [hSel])] at h
    rw [if_neg (by simp)] at h
    cases h
    rw [hr] at ht
    cases ht

/-- The `ok` arm of the outer `try` block is only reached after
`context.close()` has been called. -/
theorem tryBlock_ok_close (env : Env) (req : BrowseRequest)
    (res : BrowseResult) (ctxO pgO ctxC : Bool)
    (h : tryBlock env req = (.ok res, ctxO, pgO, ctxC)) : ctxC = true := by
  unfold tryBlock at h
  cases hC : env.newContextResult with
  | error e => rw [hC] at h; cases h
  | ok _ =>
      rw [hC] at h
      cases hP : env.newPageResult with
      | error e => rw [hP] at h; cases h
      | ok _ =>
          rw [hP] at h
          cases hI : innerSteps env req with
          | error e => rw [hI] at h; cases h
          | ok r =>
              rw [hI] at h
              cases hCl : env.contextCloseResult with
              | error e => rw [hCl] at h; cases h
              | ok _ => rw [hCl] at h; cases h; rfl

/-! ## Claim theorems -/

/-- C4: For every successful browse result that contains a text field,
the text is at most 8000 characters long when the action is `read` and
at most 3000 characters long when the action is `click`. -/
theorem c4_text_length_caps (env : Env) (req : BrowseRequest) (st : Stats)
    (res : BrowseResult) (h : (browseCore env req st).result = .ok res)
    (t : String) (ht : res.text = some t) :
    (req.action = "read" → t.length ≤ 8000) ∧
    (req.action = "click" → t.length ≤ 3000) := by
  obtain ⟨title, r1, hT, hS, hA⟩ :=
    innerSteps_ok_decomp env req res (browseCore_ok_innerSteps env req st res h)
  have hr1 : r1.text = none := screenshotStep_text env req _ r1 hS
  exact ⟨fun hR => actionStep_read_length env req r1 res hR hA t ht,
         fun hC => actionStep_click_length env req r1 res hC hr1 hA t ht⟩

/-- Witness for C4 at a concrete all-success run of the `read` action. -/
theorem c4_text_length_caps_witness :
    ((mkReq "https://example.com" "read" none none).action = "read" →
      String.length "hello" ≤ 8000) ∧
    ((mkReq "https://example.com" "read" none none).action = "click" →
      String.length "hello" ≤ 3000) :=
  c4_text_length_caps okEnv (mkReq "https://example.com" "read" none none) stZero
    { url := "https://example.com", title := "T", action := "read",
      screenshot := some "", text := some "hello" } rfl "hello" rfl

/-- C8: Every GET /healthz request returns a success response without
authentication (the handler takes no key at all), even when no Session
was ever launched (`none` handle); it reports whether the browser is
connected and is a total function, so it never fails. -/
theorem c8_healthz_always_ok (b : BrowserHandle) :
    (healthz b).ok = true ∧
    healthz none = { ok := true, browser_ready := false } ∧
    (∀ c, (healthz (some c)).browser_ready = c) :=
  ⟨rfl, rfl, fun _ => rfl⟩

/-- C7: A navigation failure during page load is swallowed: the whole
observable outcome of `_browse` (result, counters, trace) is identical
whether `page.goto` raises or succeeds, and with every other call
succeeding a failing navigation still yields a success result. -/
theorem c7_navigation_error_swallowed (env : Env) (req : BrowseRequest) (st : Stats)
    (msg : String) :
    browseCore { env with gotoResult := .error msg } req st =
      browseCore { env with gotoResult := .ok () } req st ∧
    (browseCore { okEnv with gotoResult := .error msg }
        (mkReq "https://example.com" "read" none none) stZero).result =
      .ok { url := "https://example.com", title := "T", action := "read",
            screenshot := some "", text := some "hello" } :=
  ⟨rfl, rfl⟩

/-- C10: After every completed `_browse` call the total counter has grown
by one, exactly one of the ok and error counters has grown by one with
the other unchanged, and the counter equation
`requests_total = requests_ok + requests_error` is preserved. -/
theorem c10_counter_equation (env : Env) (req : BrowseRequest) (st : Stats) :
    (browseCore env req st).stats.requests_total = st.requests_total + 1 ∧
    (((browseCore env req st).stats.requests_ok = st.requests_ok + 1 ∧
      (browseCore env req st).stats.requests_error = st.requests_error) ∨
     ((browseCore env req st).stats.requests_error = st.requests_error + 1 ∧
      (browseCore env req st).stats.requests_ok = st.requests_ok)) ∧
    (st.requests_total = st.requests_ok + st.requests_error →
      (browseCore env req st).stats.requests_total =
        (browseCore env req st).stats.requests_ok +
          (browseCore env req st).stats.requests_error) := by
  unfold browseCore
  cases hE : env.ensureBrowserResult with
  | error e =>
      exact ⟨rfl, Or.inr ⟨rfl, rfl⟩, fun hEq => by
        show st.requests_total + 1 = st.requests_ok + (st.requests_error + 1)
        omega⟩
  | ok _ =>
      rcases hT : tryBlock env req with ⟨msg | res, ctxO, pgO, ctxC⟩
      · exact ⟨rfl, Or.inr ⟨rfl, rfl⟩, fun hEq => by
          show st.requests_total + 1 = st.requests_ok + (st.requests_error + 1)
          omega⟩
      · exact ⟨rfl, Or.inl ⟨rfl, rfl⟩, fun hEq => by
          show st.requests_total + 1 = (st.requests_ok + 1) + st.requests_error
          omega⟩

/-- Witness for C10 at a concrete all-success call on zeroed counters. -/
theorem c10_counter_equation_witness :
    (browseCore okEnv (mkReq "https://example.com" "read" none none) stZero).stats.requests_total =
      stZero.requests_total + 1 ∧
    (((browseCore okEnv (mkReq "https://example.com" "read" none none) stZero).stats.requests_ok =
        stZero.requests_ok + 1 ∧
      (browseCore okEnv (mkReq "https://example.com" "read" none none) stZero).stats.requests_error =
        stZero.requests_error) ∨
     ((browseCore okEnv (mkReq "https://example.com" "read" none none) stZero).stats.requests_error =
        stZero.requests_error + 1 ∧
      (browseCore okEnv (mkReq "https://example.com" "read" none none) stZero).stats.requests_ok =
        stZero.requests_ok)) ∧
    (stZero.requests_total = stZero.requests_ok + stZero.requests_error →
      (browseCore okEnv (mkReq "https://example.com" "read" none none) stZero).stats.requests_total =
        (browseCore okEnv (mkReq "https://example.com" "read" none none) stZero).stats.requests_ok +
          (browseCore okEnv (mkReq "https://example.com" "read" none none) stZero).stats.requests_error) :=
  c10_counter_equation okEnv (mkReq "https://example.com" "read" none none) stZero

/-- C6: A request to any authenticated endpoint (all except /healthz)
whose API key header is absent or differs from the configured secret is
rejected with a 401 error; the counters, the browser handle and the
resource trace are untouched, so no browsing work happens. -/
theorem c6_auth_rejection (apiKey : String) (xApiKey : Option String) (env : Env)
    (req : BrowseRequest) (st : Stats) (b : BrowserHandle) (uptime : Nat)
    (launch : Except String Unit) (h : xApiKey ≠ some apiKey) :
    statusEndpoint apiKey xApiKey b uptime st =
      .error (.httpException 401 "Invalid API key") ∧
    browseEndpoint apiKey xApiKey env req st =
      { result := .error (.httpException 401 "Invalid API key"),
        stats := st, trace := noWorkTrace } ∧
    screenshotOnly apiKey xApiKey env req st =
      (.error (.httpException 401 "Invalid API key"), st, noWorkTrace) ∧
    extractText apiKey xApiKey env req st =
      (.error (.httpException 401 "Invalid API key"), st, noWorkTrace) ∧
    restartBrowser apiKey xApiKey launch b =
      (.error (.httpException 401 "Invalid API key"), b) := by
  have hAuth : checkAuth apiKey xApiKey =
      .error (.httpException 401 "Invalid API key") := by
    unfold checkAuth
    rw [if_pos h]
  refine ⟨?_, ?_, ?_, ?_, ?_⟩ <;>
    simp only [statusEndpoint, browseEndpoint, screenshotOnly, extractText,
      restartBrowser, hAuth]

/-- Witness for C6: the default key configured, no header supplied. -/
theorem c6_auth_rejection_witness :
    statusEndpoint defaultApiKey none none 0 stZero =
      .error (.httpException 401 "Invalid API key") ∧
    browseEndpoint defaultApiKey none okEnv (mkReq "https://example.com" "read" none none) stZero =
      { result := .error (.httpException 401 "Invalid API key"),
        stats := stZero, trace := noWorkTrace } ∧
    screenshotOnly defaultApiKey none okEnv (mkReq "https://example.com" "read" none none) stZero =
      (.error (.httpException 401 "Invalid API key"), stZero, noWorkTrace) ∧
    extractText defaultApiKey none okEnv (mkReq "https://example.com" "read" none none) stZero =
      (.error (.httpException 401 "Invalid API key"), stZero, noWorkTrace) ∧
    restartBrowser defaultApiKey none (.ok ()) none =
      (.error (.httpException 401 "Invalid API key"), none) :=
  c6_auth_rejection defaultApiKey none okEnv (mkReq "https://example.com" "read" none none)
    stZero none 0 (.ok ()) (by decide)

/-- Congruence for the inner steps: two oracles that agree on the title
and screenshot calls and whose action dispatch agrees pointwise give the
same inner result. -/
theorem innerSteps_congr (e1 e2 : Env) (req : BrowseRequest)
    (hT : e1.titleResult = e2.titleResult)
    (hSS : e1.screenshotResult = e2.screenshotResult)
    (hAct : ∀ r, actionStep e1 req r = actionStep e2 req r) :
    innerSteps e1 req = innerSteps e2 req := by
  unfold innerSteps screenshotStep
  rw [hT, hSS]
  simp only [hAct]

/-- Congruence for the whole handler: oracles that agree on every call
the handler routes through give identical outcomes. -/
theorem browseCore_congr (e1 e2 : Env) (req : BrowseRequest) (st : Stats)
    (hE : e1.ensureBrowserResult = e2.ensureBrowserResult)
    (hC : e1.newContextResult = e2.newContextResult)
    (hP : e1.newPageResult = e2.newPageResult)
    (hG : e1.gotoResult = e2.gotoResult)
    (hCl : e1.contextCloseResult = e2.contextCloseResult)
    (hIS : innerSteps e1 req = innerSteps e2 req) :
    browseCore e1 req st = browseCore e2 req st := by
  unfold browseCore tryBlock
  rw [hE, hC, hP, hG, hCl, hIS]

/-- C1 counterexample: a `click` request whose selector is absent does
NOT fail; with every browser call succeeding it returns a success result
(with a screenshot and no text), refuting the claimed ActionError. -/
theorem c1_counterexample :
    (browseCore okEnv (mkReq "https://example.com" "click" none none) stZero).result =
      .ok { url := "https://example.com", title := "T", action := "click",
            screenshot := some "", text := none } := rfl

/-- C1 (amended): for a `click` request whose selector is absent the
handler never reaches the click call (the outcome is independent of the
click result) and any success result carries no text field; no failure is
raised for the missing selector. -/
theorem c1_click_missing_selector (env : Env) (req : BrowseRequest) (st : Stats)
    (hA : req.action = "click") (hS : req.selector = none) :
    (∀ res, (browseCore env req st).result = .ok res → res.text = none) ∧
    (∀ c, browseCore { env with clickResult := c } req st = browseCore env req st) := by
  have hR : ¬ req.action = "read" := by rw [hA]; decide
  have hC : ¬ (req.action = "click" ∧ pyTruthy req.selector) := by
    rintro ⟨-, hc⟩
    rw [hS] at hc
    exact absurd hc (by decide)
  have hF : ¬ (req.action = "fill" ∧ pyTruthy req.selector ∧ pyTruthy req.input_text) := by
    rintro ⟨hf, -⟩
    rw [hA] at hf
    exact absurd hf (by decide)
  constructor
  · intro res h
    obtain ⟨title, r1, hT, hS2, hAct⟩ :=
      innerSteps_ok_decomp env req res (browseCore_ok_innerSteps env req st res h)
    have hr1 : r1.text = none := screenshotStep_text env req _ r1 hS2
    rw [actionStep_skip env req r1 hR hC hF] at hAct
    cases hAct
    exact hr1
  · intro c
    exact browseCore_congr _ env req st rfl rfl rfl rfl rfl
      (innerSteps_congr _ env req rfl rfl (fun r => by
        rw [actionStep_skip _ req r hR hC hF, actionStep_skip env req r hR hC hF]))

/-- Witness for the amended C1: failing the click call changes nothing
for a selector-less click request. -/
theorem c1_click_missing_selector_witness :
    browseCore { okEnv with clickResult := .error "E" }
      (mkReq "https://example.com" "click" none none) stZero =
    browseCore okEnv (mkReq "https://example.com" "click" none none) stZero :=
  (c1_click_missing_selector okEnv (mkReq "https://example.com" "click" none none)
    stZero rfl rfl).2 (.error "E")

/-- C2 counterexample: a `fill` request with input text but no selector
does NOT fail; it returns a success result with no text field, refuting
the claimed ActionError. -/
theorem c2_counterexample :
    (browseCore okEnv (mkReq "https://example.com" "fill" none (some "x")) stZero).result =
      .ok { url := "https://example.com", title := "T", action := "fill",
            screenshot := some "", text := none } := rfl

/-- C2 (amended): for a `fill` request in which selector or input text is
absent the handler never reaches the fill call (the outcome is
independent of the fill result) and any success result carries no text
field; no failure is raised for the missing fields. -/
theorem c2_fill_missing_field (env : Env) (req : BrowseRequest) (st : Stats)
    (hA : req.action = "fill") (hM : req.selector = none ∨ req.input_text = none) :
    (∀ res, (browseCore env req st).result = .ok res → res.text = none) ∧
    (∀ f, browseCore { env with fillResult := f } req st = browseCore env req st) := by
  have hR : ¬ req.action = "read" := by rw [hA]; decide
  have hC : ¬ (req.action = "click" ∧ pyTruthy req.selector) := by
    rintro ⟨hc, -⟩
    rw [hA] at hc
    exact absurd hc (by decide)
  have hF : ¬ (req.action = "fill" ∧ pyTruthy req.selector ∧ pyTruthy req.input_text) := by
    rintro ⟨-, hs, hi⟩
    cases hM with
    | inl hssel => rw [hssel] at hs; exact absurd hs (by decide)
    | inr hinp => rw [hinp] at hi; exact absurd hi (by decide)
  constructor
  · intro res h
    obtain ⟨title, r1, hT, hS2, hAct⟩ :=
      innerSteps_ok_decomp env req res (browseCore_ok_innerSteps env req st res h)
    have hr1 : r1.text = none := screenshotStep_text env req _ r1 hS2
    rw [actionStep_skip env req r1 hR hC hF] at hAct
    cases hAct
    exact hr1
  · intro f
    exact browseCore_congr _ env req st rfl rfl rfl rfl rfl
      (innerSteps_congr _ env req rfl rfl (fun r => by
        rw [actionStep_skip _ req r hR hC hF, actionStep_skip env req r hR hC hF]))

/-- Witness for the amended C2: failing the fill call changes nothing for
a fill request with absent selector. -/
theorem c2_fill_missing_field_witness :
    browseCore { okEnv with fillResult := .error "E" }
      (mkReq "https://example.com" "fill" none (some "x")) stZero =
    browseCore okEnv (mkReq "https://example.com" "fill" none (some "x")) stZero :=
  (c2_fill_missing_field okEnv (mkReq "https://example.com" "fill" none (some "x"))
    stZero rfl (Or.inl rfl)).2 (.error "E")

/-- C3 counterexample: on a failure path (both text extraction calls of a
`read` action raise) the handler returns an error after having opened the
context, yet the context close is never called (only the page close is
attempted). -/
theorem c3_counterexample :
    (browseCore readFailEnv (mkReq "https://example.com" "read" none none) stZero).result =
      .error (.httpException 500 "boom2") ∧
    (browseCore readFailEnv (mkReq "https://example.com" "read" none none) stZero).trace.contextOpened = true ∧
    (browseCore readFailEnv (mkReq "https://example.com" "read" none none) stZero).trace.contextCloseCalled = false ∧
    (browseCore readFailEnv (mkReq "https://example.com" "read" none none) stZero).trace.pageCloseCalled = true :=
  ⟨rfl, rfl, rfl, rfl⟩

/-- C3 (amended): the context close is called on the success path; on
failure paths that opened a page, the page close (not the context close)
is attempted before the error is surfaced. -/
theorem c3_cleanup_paths (env : Env) (req : BrowseRequest) (st : Stats) :
    (∀ res, (browseCore env req st).result = .ok res →
      (browseCore env req st).trace.contextCloseCalled = true) ∧
    (∀ e, (browseCore env req st).result = .error e →
      (browseCore env req st).trace.pageOpened = true →
      (browseCore env req st).trace.pageCloseCalled = true) := by
  unfold browseCore
  cases hE : env.ensureBrowserResult with
  | error e =>
      exact ⟨fun res h => Except.noConfusion h, fun e2 h hp => Bool.noConfusion hp⟩
  | ok _ =>
      rcases hT : tryBlock env req with ⟨msg | res, ctxO, pgO, ctxC⟩
      · exact ⟨fun res2 h => Except.noConfusion h, fun e2 h hp => hp⟩
      · exact ⟨fun res2 h => tryBlock_ok_close env req res ctxO pgO ctxC hT,
               fun e2 h hp => Except.noConfusion h⟩

/-- Witness for the amended C3 on a concrete all-success `read` run. -/
theorem c3_cleanup_paths_witness :
    (browseCore okEnv (mkReq "https://example.com" "read" none none) stZero).trace.contextCloseCalled = true :=
  (c3_cleanup_paths okEnv (mkReq "https://example.com" "read" none none) stZero).1
    { url := "https://example.com", title := "T", action := "read",
      screenshot := some "", text := some "hello" } rfl

/-- C5 counterexample: a `fill` request with both fields present but an
empty selector string skips the fill branch (Python truthiness) and
returns a success result with no text at all, refuting the claim that
every successful fill with both fields present returns a confirmation
string. -/
theorem c5_counterexample :
    (browseCore okEnv (mkReq "https://example.com" "fill" (some "") (some "x")) stZero).result =
      .ok { url := "https://example.com", title := "T", action := "fill",
            screenshot := some "", text := none } := rfl

/-- C5 (amended): for every successful `fill` action whose selector and
input text are present AND non-empty, the returned text is the
confirmation string, which ends with (hence contains verbatim) the first
50 characters of the input text. -/
theorem c5_fill_confirmation (env : Env) (req : BrowseRequest) (st : Stats)
    (sel inp : String) (hA : req.action = "fill")
    (hSel : req.selector = some sel) (hSelNe : sel ≠ "")
    (hInp : req.input_text = some inp) (hInpNe : inp ≠ "")
    (res : BrowseResult) (h : (browseCore env req st).result = .ok res) :
    res.text = some (fillMessage sel inp) ∧
    ∃ p, res.text = some (p ++ pyTake inp 50) := by
  obtain ⟨title, r1, hT, hS2, hAct⟩ :=
    innerSteps_ok_decomp env req res (browseCore_ok_innerSteps env req st res h)
  have hTS : pyTruthy req.selector := by rw [hSel]; simp [pyTruthy, hSelNe]
  have hTI : pyTruthy req.input_text := by rw [hInp]; simp [pyTruthy, hInpNe]
  unfold actionStep at hAct
  rw [if_neg (show ¬ req.action = "read" by rw [hA]; decide)] at hAct
  rw [if_neg (show ¬ (req.action = "click" ∧ pyTruthy req.selector) by
    rintro ⟨hc, -⟩; rw [hA] at hc; exact absurd hc (by decide))] at hAct
  rw [if_pos ⟨hA, hTS, hTI⟩] at hAct
  cases hFR : env.fillResult with
  | error e => rw [hFR] at hAct; cases hAct
  | ok _ =>
      rw [hFR] at hAct
      cases hAct
      have hres : ({ r1 with
          text := some (fillMessage (req.selector.getD "") (req.input_text.getD "")) } :
            BrowseResult).text = some (fillMessage sel inp) := by
        rw [hSel, hInp]
        rfl
      refine ⟨hres, "Filled " ++ singleQuote ++ sel ++ singleQuote ++ " with: ", ?_⟩
      rw [hres]
      simp [fillMessage, String.append_assoc]

/-- Witness for the amended C5 with non-empty selector and input. -/
theorem c5_fill_confirmation_witness :
    ({ url := "https://example.com", title := "T", action := "fill",
       screenshot := some "", text := some (fillMessage "input" "Hello") } : BrowseResult).text =
      some (fillMessage "input" "Hello") ∧
    ∃ p, ({ url := "https://example.com", title := "T", action := "fill",
            screenshot := some "", text := some (fillMessage "input" "Hello") } : BrowseResult).text =
      some (p ++ pyTake "Hello" 50) :=
  c5_fill_confirmation okEnv
    (mkReq "https://example.com" "fill" (some "input") (some "Hello")) stZero
    "input" "Hello" rfl rfl (by decide) rfl (by decide)
    { url := "https://example.com", title := "T", action := "fill",
      screenshot := some "", text := some (fillMessage "input" "Hello") } rfl

/-- C9: a browse request whose action is none of the four known actions
(with the browser calls on its path succeeding) still returns a success
result holding only url, title and action — no screenshot, no text — and
increments the ok counter. -/
theorem c9_unknown_action (env : Env) (req : BrowseRequest) (st : Stats) (t : String)
    (hA : (["screenshot", "read", "click", "fill"].contains req.action) = false)
    (hE : env.ensureBrowserResult = .ok ())
    (hCtx : env.newContextResult = .ok ())
    (hPg : env.newPageResult = .ok ())
    (hT : env.titleResult = .ok t)
    (hCl : env.contextCloseResult = .ok ()) :
    browseCore env req st =
      { result := .ok { url := req.url, title := t, action := req.action,
                        screenshot := none, text := none },
        stats := { requests_total := st.requests_total + 1,
                   requests_ok := st.requests_ok + 1,
                   requests_error := st.requests_error },
        trace := { ensureCalled := true, contextOpened := true, pageOpened := true,
                   contextCloseCalled := true, pageCloseCalled := false } } := by
  have hRead : ¬ req.action = "read" := by
    intro hc
    rw [hc] at hA
    exact absurd hA (by decide)
  have hClick : ¬ (req.action = "click" ∧ pyTruthy req.selector) := by
    rintro ⟨hc, -⟩
    rw [hc] at hA
    exact absurd hA (by decide)
  have hFill : ¬ (req.action = "fill" ∧ pyTruthy req.selector ∧ pyTruthy req.input_text) := by
    rintro ⟨hc, -⟩
    rw [hc] at hA
    exact absurd hA (by decide)
  have hIS : innerSteps env req =
      .ok { url := req.url, title := t, action := req.action,
            screenshot := none, text := none } := by
    unfold innerSteps screenshotStep
    rw [hT]
    simp only [hA]
    exact actionStep_skip env req _ hRead hClick hFill
  unfold browseCore tryBlock
  rw [hE, hCtx, hPg, hIS, hCl]

/-- Witness for C9 at the unknown action `hover`. -/
theorem c9_unknown_action_witness :
    browseCore okEnv (mkReq "https://example.com" "hover" none none) stZero =
      { result := .ok { url := "https://example.com", title := "T", action := "hover",
                        screenshot := none, text := none },
        stats := { requests_total := 1, requests_ok := 1, requests_error := 0 },
        trace := { ensureCalled := true, contextOpened := true, pageOpened := true,
                   contextCloseCalled := true, pageCloseCalled := false } } :=
  c9_unknown_action okEnv (mkReq "https://example.com" "hover" none none) stZero "T"
    (by decide) rfl rfl rfl rfl rfl
